import Mathlib

/-!
Verification development for the cog model-serving control plane.

The repository under verification ships `cog/server/http.py` and
`cog/server/telemetry.py` together with the test suite
`tests/server/test_prediction_service.py`.  The module
`cog/server/prediction_service.py` (PredictionService, SetupTask,
PredictTask) is exercised by those tests but its source is not part of
the checkout, so its operations are modelled here from the project
specification (sections 3, 4.2, 4.3 and 4.4), cross-checked against the
observable behaviour asserted by the test suite.  `http.py` and
`telemetry.py` are embedded directly from their sources.

Machine-level details that the claims do not depend on are abstracted:
timestamps are natural numbers supplied by an injectable clock (the
tests use a FakeClock counting 1, 2, 3, ...), prediction inputs and
output values are string payloads, and the webhook sender / file
uploader collaborators are modelled as a recording log respectively an
optional transformation function, exactly as the tests' mocks do.
-/

namespace Cog

/-- Status enum from `cog.schema.Status` (the four values used by the
prediction service and its tests). -/
inductive Status where
  | processing
  | succeeded
  | failed
  | canceled
deriving DecidableEq

/-- A status is terminal when it is one of succeeded/failed/canceled. -/
def Status.isTerminal : Status → Bool
  | .processing => false
  | _ => true

/-- Webhook event kinds from `cog.schema.WebhookEvent` used by
PredictTask: START, OUTPUT, LOGS, COMPLETED. -/
inductive WebhookEvent where
  | start
  | output
  | logs
  | completed
deriving DecidableEq

/-- Worker events from `cog.server.eventtypes`: `Log`, `Output` and the
terminal `Done{error, error_detail, canceled}` marker.  Output values
and log chunks are abstracted as strings. -/
inductive Event where
  | log (message : String) (source : String)
  | output (value : String)
  | done (error : Bool) (error_detail : String) (canceled : Bool)
deriving DecidableEq

/-- Modelled from the spec: a raw fault surfaced instead of a clean
`Done` is captured as a formatted traceback log line ending in the
fault's message (the tests assert the entry starts with "Traceback" and
ends with the message followed by a newline). -/
def formatTrace (msg : String) : String :=
  "Traceback (most recent call last):\n" ++ msg ++ "\n"

/-- `containsStr s sub` says that `sub` occurs inside `s`. -/
def containsStr (s sub : String) : Prop :=
  ∃ p q, s = p ++ sub ++ q

/-- Output accumulator of a prediction: unset, a single replaced value,
or a growing ordered sequence of values. -/
inductive OutputVal where
  | noOutput
  | single (v : String)
  | multi (vs : List String)
deriving DecidableEq

/-- The public prediction record (the tests construct it as
`PredictionResponse(input=...)`): input payload, optional id, one
concatenated log buffer, output accumulator, status, optional error,
timestamps and the `predict_time` metric. -/
structure PredictionResponse where
  input : String
  id : Option String := none
  logs : String := ""
  output : OutputVal := .noOutput
  status : Status := .processing
  error : Option String := none
  started_at : Nat := 0
  completed_at : Option Nat := none
  predict_time : Option Nat := none
deriving DecidableEq

/-- Modelled from the spec (section 4.3): the state of one PredictTask.
`response` is the owned PredictionResponse, `output_type` records the
`set_output_type(multi=...)` choice, `webhook` tells whether a webhook
sender is configured (each fired notification is recorded in
`webhookLog` as the snapshot sent together with the event kind, the way
the tests' mock records calls), and `uploader` is the optional file
uploader transformation. -/
structure PredictTask where
  response : PredictionResponse
  output_type : Option Bool := none
  webhook : Bool
  uploader : Option (String → String)
  webhookLog : List (PredictionResponse × WebhookEvent)

/-- Fire a webhook notification with the current outcome snapshot; a
no-op when no webhook sender is configured. -/
def PredictTask.fire (t : PredictTask) (k : WebhookEvent) : PredictTask :=
  if t.webhook then
    { t with webhookLog := t.webhookLog ++ [(t.response, k)] }
  else t

/-- Modelled from the spec: PredictTask construction sets
`status=PROCESSING`, `started_at=now`, and fires exactly one START
notification when a webhook sender is configured. -/
def PredictTask.create (input : String) (id : Option String) (webhook : Bool)
    (uploader : Option (String → String)) (now : Nat) : PredictTask :=
  let r : PredictionResponse := { input := input, id := id, started_at := now }
  PredictTask.fire { response := r, webhook := webhook, uploader := uploader, webhookLog := [] }
    .start

/-- Modelled from the spec: records the output cardinality; no webhook
call is made here.  (Calling it more than once, or after the first
`append_output`, is a precondition violation of the spec and is not
exercised by any claim.) -/
def PredictTask.set_output_type (t : PredictTask) (multi : Bool) : PredictTask :=
  { t with output_type := some multi }

/-- Apply the configured file uploader to an output value, if any. -/
def applyUpl (u : Option (String → String)) (v : String) : String :=
  match u with
  | some f => f v
  | none => v

/-- The task's output transformation (its uploader, or the identity). -/
def PredictTask.transform (t : PredictTask) (v : String) : String :=
  applyUpl t.uploader v

/-- The sequence accumulated so far in an output accumulator (empty
while the output is still unset). -/
def outputList : OutputVal → List String
  | .multi vs => vs
  | _ => []

/-- Modelled from the spec: `append_output(value)` first replaces the
value with `file_uploader(value)` when an uploader is configured; with
`multi=false` it overwrites `output` (no webhook); with `multi=true` it
appends to the output sequence and fires one OUTPUT notification
carrying the accumulated sequence.  Calling it before
`set_output_type` is a precondition violation (the implementation
asserts); the model leaves the task unchanged in that case. -/
def PredictTask.append_output (t : PredictTask) (v : String) : PredictTask :=
  let v' := t.transform v
  match t.output_type with
  | some false => { t with response := { t.response with output := .single v' } }
  | some true =>
      let vs := outputList t.response.output
      ({ t with response := { t.response with output := .multi (vs ++ [v']) } }).fire .output
  | none => t

/-- Modelled from the spec: concatenate the chunk onto the log buffer
and fire one LOGS notification carrying the accumulated buffer. -/
def PredictTask.append_logs (t : PredictTask) (chunk : String) : PredictTask :=
  ({ t with response := { t.response with logs := t.response.logs ++ chunk } }).fire .logs

/-- Modelled from the spec (section 4.3, operational description):
`succeeded()` sets the status, `completed_at`, computes
`metrics.predict_time` and fires COMPLETED.  No guard against an
earlier terminal call is applied — the repository's own tests invoke
`succeeded()`, `failed()` and `canceled()` in sequence on one task and
assert that each takes effect. -/
def PredictTask.succeeded (t : PredictTask) (now : Nat) : PredictTask :=
  ({ t with response := { t.response with
      status := .succeeded
      completed_at := some now
      predict_time := some (now - t.response.started_at) } }).fire .completed

/-- Modelled from the spec: `failed(error)` sets status FAILED, the
error field and `completed_at`, and fires COMPLETED (unguarded, as for
`succeeded`). -/
def PredictTask.failed (t : PredictTask) (e : String) (now : Nat) : PredictTask :=
  ({ t with response := { t.response with
      status := .failed
      error := some e
      completed_at := some now } }).fire .completed

/-- Modelled from the spec: `canceled()` sets status CANCELED and
`completed_at`, and fires COMPLETED (unguarded, as for `succeeded`). -/
def PredictTask.canceled (t : PredictTask) (now : Nat) : PredictTask :=
  ({ t with response := { t.response with
      status := .canceled
      completed_at := some now } }).fire .completed

/-- Modelled from the spec (section 3): a raw fault surfaced during a
prediction is treated as `Done{error=true}` with the fault's
description captured as a log line: the formatted traceback is appended
to the log buffer (the tests show no LOGS webhook for it) and the task
is failed with the fault's message. -/
def PredictTask.handle_fault (t : PredictTask) (msg : String) (now : Nat) : PredictTask :=
  ({ t with response := { t.response with
      logs := t.response.logs ++ formatTrace msg } }).failed msg now

/-- A PredictTask is done once its status is terminal. -/
def predictDone (t : PredictTask) : Bool :=
  t.response.status.isTerminal

/-- Modelled from the spec (section 3): the outcome record owned by a
SetupTask — timestamps, one log entry per Log event (unmodified
message text, a list rather than a concatenated buffer), and a status
that stays unset while the setup is running. -/
structure SetupResult where
  started_at : Nat
  completed_at : Option Nat := none
  logs : List String := []
  status : Option Status := none
deriving DecidableEq

/-- Modelled from the spec (section 4.2): `done()` is true once the
status is set. -/
def SetupResult.done (r : SetupResult) : Bool :=
  r.status.isSome

/-- Modelled from the spec (section 4.2): `handle_event` appends the
message of a Log event to `logs`; on `Done{error=false}` it sets
SUCCEEDED and `completed_at=now`; on `Done{error=true}` it sets FAILED
and `completed_at=now` (the failure is already captured in the event's
`error_detail`, so no extra log entry is appended — the repository's
parametrized SetupTask test expects the logs to stay empty in this
case).  Output events do not occur in setup streams and are ignored. -/
def SetupResult.handle_event (r : SetupResult) (now : Nat) : Event → SetupResult
  | .log m _ => { r with logs := r.logs ++ [m] }
  | .output _ => r
  | .done error _ _ =>
      if error then { r with status := some .failed, completed_at := some now }
      else { r with status := some .succeeded, completed_at := some now }

/-- Modelled from the spec (section 3): a raw fault during setup is
treated as `Done{error=true}` with the fault's description captured as
a log line — the formatted traceback is appended to `logs`, the status
becomes FAILED and `completed_at` is set. -/
def SetupResult.handle_fault (r : SetupResult) (now : Nat) (msg : String) : SetupResult :=
  { r with
      status := some .failed
      completed_at := some now
      logs := r.logs ++ [formatTrace msg] }

/-- Signals delivered to a running SetupTask, matching the shape of the
repository's parametrized SetupTask test: a clock tick, a worker event,
or a raw fault carrying its message. -/
inductive SetupSignal where
  | tick
  | ev (e : Event)
  | fault (msg : String)
deriving DecidableEq

/-- One step of a setup run: the state is the current clock value
paired with the accumulating SetupResult. -/
def runSetupStep : Nat × SetupResult → SetupSignal → Nat × SetupResult
  | (t, r), .tick => (t + 1, r)
  | (t, r), .ev e => (t, r.handle_event t e)
  | (t, r), .fault m => (t, r.handle_fault t m)

/-- Run a SetupTask created at clock value `t0` over a list of signals
(the clock is injectable, as in the tests' FakeClock). -/
def runSetup (t0 : Nat) (sigs : List SetupSignal) : Nat × SetupResult :=
  sigs.foldl runSetupStep (t0, { started_at := t0 })

/-- Errors raised synchronously by the service's admission and
validation checks: ConflictError, BusyError, ValidationError,
UnknownPredictionError. -/
inductive ServiceError where
  | conflict
  | busy
  | validation
  | unknownPrediction
deriving DecidableEq

/-- A prediction request: optional client-supplied id plus the input
payload (abstracted as a string). -/
structure PredictionRequest where
  id : Option String := none
  input : String
deriving DecidableEq

/-- Modelled from the spec (section 4.4): the PredictionService state.
It owns at most one SetupTask outcome and one PredictTask at a time;
`outputMulti` is the predictor's declared output arity used when the
first Output event is routed, and `webhook`/`uploader` are the
collaborators handed to each created PredictTask. -/
structure PredictionService where
  current_setup_task : Option SetupResult := none
  current_predict_task : Option PredictTask := none
  outputMulti : Bool := false
  webhook : Bool := false
  uploader : Option (String → String) := none

/-- Modelled from the spec (section 4.4): `is_busy()` is true if no
setup task exists, or setup exists but is not done, or a predict task
exists and is not done. -/
def PredictionService.is_busy (s : PredictionService) : Bool :=
  match s.current_setup_task, s.current_predict_task with
  | none, _ => true
  | some st, none => !st.done
  | some st, some pt => !st.done || !predictDone pt

/-- Modelled from the spec (section 4.4): `setup()` fails with
ConflictError if a setup task already exists, otherwise creates and
stores a fresh SetupTask (its outcome starts with only `started_at`
set). -/
def PredictionService.setup (s : PredictionService) (now : Nat) :
    Except ServiceError (PredictionService × SetupResult) :=
  match s.current_setup_task with
  | some _ => .error .conflict
  | none =>
      let t : SetupResult := { started_at := now }
      .ok ({ s with current_setup_task := some t }, t)

/-- Modelled from the spec (section 4.4): `predict(request)` fails with
BusyError exactly when the service is busy; otherwise it creates a
PredictTask seeded with the request's input and id, stores it as the
current predict task (replacing any completed predecessor) and returns
it. -/
def PredictionService.predict (s : PredictionService) (req : PredictionRequest) (now : Nat) :
    Except ServiceError (PredictionService × PredictTask) :=
  if s.is_busy then .error .busy
  else
    let t := PredictTask.create req.input req.id s.webhook s.uploader now
    .ok ({ s with current_predict_task := some t }, t)

/-- Modelled from the spec (sections 4.4 and 5): `cancel(id)` fails
with ValidationError when the id is absent or empty; fails with
UnknownPredictionError when there is no in-flight predict task, the
current predict task is already done (it stays stored and readable for
result polling, but is no longer "in flight" for cancellation), or its
id differs; otherwise the worker's cancellation is requested and the
resulting `Done{canceled=true}` is routed to `canceled()`, which the
shallow embedding composes synchronously. -/
def PredictionService.cancel (s : PredictionService) (id : Option String) (now : Nat) :
    Except ServiceError PredictionService :=
  match id with
  | none => .error .validation
  | some i =>
      if i = "" then .error .validation
      else
        match s.current_predict_task with
        | none => .error .unknownPrediction
        | some pt =>
            if predictDone pt then .error .unknownPrediction
            else if pt.response.id ≠ some i then .error .unknownPrediction
            else .ok { s with current_predict_task := some (pt.canceled now) }

/-- Modelled from the spec (section 4.4): the routing callback for a
predict call forwards Log events to `append_logs`, Output events to
`append_output` (calling `set_output_type` first with the predictor's
declared arity if not yet set), and terminal Done events to
`canceled`/`failed`/`succeeded`. -/
def PredictionService.handle_predict_event (s : PredictionService) (now : Nat) (e : Event) :
    PredictionService :=
  match s.current_predict_task with
  | none => s
  | some pt =>
      match e with
      | .log m _ => { s with current_predict_task := some (pt.append_logs m) }
      | .output v =>
          let pt1 := match pt.output_type with
            | none => pt.set_output_type s.outputMulti
            | some _ => pt
          { s with current_predict_task := some (pt1.append_output v) }
      | .done error detail canceled =>
          let pt' :=
            if canceled then pt.canceled now
            else if error then pt.failed detail now
            else pt.succeeded now
          { s with current_predict_task := some pt' }

/-- Modelled from the spec (section 3): a raw fault surfaced during a
predict call is routed to the current predict task's fault handler,
which absorbs it into the outcome; the routing itself is a total
function and never propagates the fault. -/
def PredictionService.handle_predict_fault (s : PredictionService) (now : Nat) (msg : String) :
    PredictionService :=
  match s.current_predict_task with
  | none => s
  | some pt => { s with current_predict_task := some (pt.handle_fault msg now) }

/-- Modelled from the spec (section 4.4): the routing callback for the
setup call forwards every event to the setup task's `handle_event`. -/
def PredictionService.handle_setup_event (s : PredictionService) (now : Nat) (e : Event) :
    PredictionService :=
  match s.current_setup_task with
  | none => s
  | some st => { s with current_setup_task := some (st.handle_event now e) }

/-- Modelled from the spec (section 3): a raw fault surfaced during
setup is absorbed into the setup task's outcome; the routing is total
and never propagates the fault. -/
def PredictionService.handle_setup_fault (s : PredictionService) (now : Nat) (msg : String) :
    PredictionService :=
  match s.current_setup_task with
  | none => s
  | some st => { s with current_setup_task := some (st.handle_fault now msg) }

/-- Health states from `cog/server/http.py`. -/
inductive Health where
  | unknown
  | starting
  | ready
  | busy
  | setup_failed
  | shutting_down
deriving DecidableEq

/-- Application state relevant to the HTTP handlers embedded from
`cog/server/http.py`: the health flag, the stored setup task and setup
result, the runner (the prediction service), and whether the shutdown
event is set. -/
structure AppState where
  health : Health
  setup_task : Option SetupResult := none
  setup_result : Option SetupResult := none
  runner : PredictionService
  shutdown : Bool := false

/-- Embedded from `http.py` `_check_setup_task` (lines 402-420): a
no-op while no setup task is stored or the stored one is not done;
otherwise the health becomes READY when the result's status is
SUCCEEDED and SETUP_FAILED otherwise, the result is stored, and the
setup task slot is cleared so future calls are a no-op. -/
def check_setup_task (a : AppState) : AppState :=
  match a.setup_task with
  | none => a
  | some t =>
      if !t.done then a
      else
        let h := if t.status = some Status.succeeded then Health.ready else Health.setup_failed
        { a with health := h, setup_result := some t, setup_task := none }

/-- Result of the POST /predictions handler, at the granularity the
claims need: a 409 conflict response, or an admitted prediction
(whether the response is the 202 initial snapshot or the awaited final
response does not affect admission). -/
inductive PredictHttpResult where
  | conflict409 (detail : String)
  | accepted (s : PredictionService) (t : PredictTask)

/-- True exactly on an `accepted` result. -/
def PredictHttpResult.isAccepted : PredictHttpResult → Bool
  | .accepted _ _ => true
  | .conflict409 _ => false

/-- Embedded from `http.py` `predict` (lines 290-310) composed with
`shared_predict` (lines 344-388): reject with 409 when the shutdown
event is set, reject with 409 when `runner.is_busy()`, otherwise
submit to the runner, mapping its BusyError to a 409.  Note the
handler consults only the shutdown event and the runner's busy flag —
it never consults `app.state.health`. -/
def http_predict (a : AppState) (req : PredictionRequest) (now : Nat) : PredictHttpResult :=
  if a.shutdown then .conflict409 "Model shutting down"
  else if a.runner.is_busy then .conflict409 "Already running a prediction"
  else
    match a.runner.predict req now with
    | .error _ => .conflict409 "Already running a prediction"
    | .ok (s', t) => .accepted s' t

/-- Embedded from `http.py` `ready` (lines 272-282): return HTTP 200
with body status "ready" when `runner.is_busy()` is true, and HTTP 503
with body status "not ready" otherwise. -/
def ready_endpoint (runner : PredictionService) : Nat × String :=
  if runner.is_busy then (200, "ready") else (503, "not ready")

/-- Result of the PUT /predictions/\x7bprediction_id\x7d handler at the
granularity C9 needs: the 409 shutting-down response, the request
validation error, or submission of the (id-normalized) request to
`shared_predict`. -/
inductive IdemOutcome where
  | shutting_down409
  | validation_error
  | submit (req : PredictionRequest)
deriving DecidableEq

/-- Embedded from `http.py` `predict_idempotent` (lines 312-342):
return 409 when the shutdown event is set; raise a request-validation
error when the body carries a non-null id differing from the URL's
prediction id; otherwise set the body's id to the URL's prediction id
and proceed to `shared_predict`. -/
def predict_idempotent (shutdown : Bool) (prediction_id : String) (req : PredictionRequest) :
    IdemOutcome :=
  if shutdown then .shutting_down409
  else
    match req.id with
    | some j =>
        if j ≠ prediction_id then .validation_error
        else .submit { req with id := some prediction_id }
    | none => .submit { req with id := some prediction_id }

/-- Trace context record from `cog/server/telemetry.py` (a TypedDict
with optional traceparent and tracestate headers). -/
structure TraceContext where
  traceparent : Option String := none
  tracestate : Option String := none
deriving DecidableEq

/-- Embedded from `telemetry.py` `make_trace_context`. -/
def make_trace_context (traceparent tracestate : Option String) : TraceContext :=
  { traceparent := traceparent, tracestate := tracestate }

/-- The ambient ContextVar `TRACE_CONTEXT` (default None), modelled as
an explicit state value. -/
structure ContextVarState where
  val : Option TraceContext
deriving DecidableEq

/-- `ContextVar.set`: returns the updated state together with the reset
token, which records the value the variable held at set time. -/
def contextVarSet (v : ContextVarState) (c : TraceContext) :
    ContextVarState × Option TraceContext :=
  ({ val := some c }, v.val)

/-- `ContextVar.reset(token)`: restores the value recorded in the
token, regardless of intervening mutations. -/
def contextVarReset (tok : Option TraceContext) : ContextVarState :=
  { val := tok }

/-- Embedded from `telemetry.py` `current_trace_context`. -/
def current_trace_context (v : ContextVarState) : Option TraceContext :=
  v.val

/-- Embedded from `telemetry.py` `trace_context`: set the variable to
`ctx`, run the body (which may read or even mutate the variable and
may finish normally or with an exception, modelled as an `Except`
result), and in all cases reset the variable with the saved token. -/
def trace_context (α : Type) (v : ContextVarState) (ctx : TraceContext)
    (body : ContextVarState → Except String α × ContextVarState) :
    Except String α × ContextVarState :=
  let p := contextVarSet v ctx
  let r := body p.1
  (r.1, contextVarReset p.2)

/-- Apply a sequence of `append_output` calls in order. -/
def applyOutputs (t : PredictTask) (vs : List String) : PredictTask :=
  vs.foldl PredictTask.append_output t

/-- The value of the last call in a sequence of appended values. -/
def lastValue : List String → Option String
  | [] => none
  | v :: vs =>
      match lastValue vs with
      | none => some v
      | some w => some w

/-- The successive cumulative output sequences produced by appending
the transformed values of `vs` onto the accumulated sequence `acc`:
one entry per appended value, each carrying everything accumulated so
far. -/
def cumOutputs (tr : String → String) (acc : List String) : List String → List (List String)
  | [] => []
  | v :: vs => (acc ++ [tr v]) :: cumOutputs tr (acc ++ [tr v]) vs

/-- Number of webhook notifications of kind `k` recorded by the task. -/
def eventCount (t : PredictTask) (k : WebhookEvent) : Nat :=
  (t.webhookLog.filter (fun p => p.2 = k)).length

/-- A PredictTask freshly created with a webhook sender configured and
the given uploader, then assigned its output cardinality. -/
def freshPredictTask (input : String) (id : Option String) (u : Option (String → String))
    (now : Nat) (multi : Bool) : PredictTask :=
  (PredictTask.create input id true u now).set_output_type multi

/-- A completed successful setup outcome (clock values as in the
tests' FakeClock). -/
def exampleSetupSucceeded : SetupResult :=
  { started_at := 0, completed_at := some 1, status := some .succeeded }

/-- A completed failed setup outcome. -/
def exampleSetupFailed : SetupResult :=
  { started_at := 0, completed_at := some 1, status := some .failed }

/-- An in-flight prediction with id "abcd1234", as in the cancellation
tests. -/
def exampleInflightTask : PredictTask :=
  PredictTask.create "giraffes" (some "abcd1234") false none 2

/-- The same prediction after reaching a terminal state. -/
def exampleTerminalTask : PredictTask :=
  exampleInflightTask.succeeded 3

/-- A service whose setup completed successfully and with no prediction
yet. -/
def exampleServiceReady : PredictionService :=
  { current_setup_task := some exampleSetupSucceeded }

/-- A service with a prediction in flight. -/
def exampleServiceInflight : PredictionService :=
  { current_setup_task := some exampleSetupSucceeded
    current_predict_task := some exampleInflightTask }

/-- A service whose previous prediction reached a terminal state. -/
def exampleServiceAfterPredict : PredictionService :=
  { current_setup_task := some exampleSetupSucceeded
    current_predict_task := some exampleTerminalTask }

/-- A service whose setup failed. -/
def exampleServiceFailedSetup : PredictionService :=
  { current_setup_task := some exampleSetupFailed }

/-- The application state before the health check observes the failed
setup result. -/
def exampleAppPreCheck : AppState :=
  { health := .starting, setup_task := some exampleSetupFailed,
    runner := exampleServiceFailedSetup }

/-- The application state right after the health check observed the
failed setup result (health is SETUP_FAILED, the runner is idle). -/
def exampleAppFailedSetup : AppState :=
  check_setup_task exampleAppPreCheck

/-- Appending one signal to a setup run performs one more step. -/
theorem runSetup_concat (t0 : Nat) (sigs : List SetupSignal) (sig : SetupSignal) :
    runSetup t0 (sigs ++ [sig]) = runSetupStep (runSetup t0 sigs) sig := by
  simp [runSetup, List.foldl_append]

/-- C10: for every trace context and every prior value of the ambient
trace context, the body of `trace_context(ctx)` observes
`current_trace_context() = ctx` (the state handed to the body is the
set state, whose current value is `ctx`, and the body's result is
computed from exactly that state), and after the block exits — whether
the body finished normally or with an exception, both covered by the
universally quantified `Except`-valued body — the ambient trace
context is exactly the value it had before entry. -/
theorem trace_context_sets_and_restores (α : Type) (v : ContextVarState) (ctx : TraceContext)
    (body : ContextVarState → Except String α × ContextVarState) :
    current_trace_context (contextVarSet v ctx).1 = some ctx
    ∧ (trace_context α v ctx body).1 = (body { val := some ctx }).1
    ∧ current_trace_context (trace_context α v ctx body).2 = current_trace_context v := by
  exact ⟨rfl, rfl, rfl⟩

/-- C8: the GET /ready endpoint returns HTTP 200 with body status
"ready" exactly when `runner.is_busy()` is true, and HTTP 503 with
body status "not ready" exactly when `runner.is_busy()` is false: the
200 response coincides with the busy state. -/
theorem ready_endpoint_busy_inversion (runner : PredictionService) :
    ready_endpoint runner = (if runner.is_busy then (200, "ready") else (503, "not ready"))
    ∧ (ready_endpoint runner = (200, "ready") ↔ runner.is_busy = true)
    ∧ (ready_endpoint runner = (503, "not ready") ↔ runner.is_busy = false) := by
  refine ⟨rfl, ?_, ?_⟩ <;> cases h : runner.is_busy <;> simp [ready_endpoint, h]

/-- Witness for C8: a busy runner (fresh service, no setup yet) gets
the 200 "ready" response and an idle runner (setup done, no
prediction) gets the 503 "not ready" response. -/
theorem ready_endpoint_busy_inversion_witness :
    ready_endpoint { } = (200, "ready")
    ∧ ready_endpoint exampleServiceReady = (503, "not ready") := by
  constructor
  · exact (ready_endpoint_busy_inversion { }).2.1.mpr (by decide)
  · exact (ready_endpoint_busy_inversion exampleServiceReady).2.2.mpr (by decide)

/-- C1: `predict(request)` raises BusyError if and only if the service
is busy at the moment of the call, `is_busy()` is true exactly when no
setup task exists, or the setup task is not yet done, or a predict
task exists and is not yet done; and once the in-flight predict task
has reached any terminal state (with setup done, as it must be for a
prediction to have been admitted), a subsequent `predict()` is
admitted and replaces the service's current predict task with the
newly created one. -/
theorem predict_busy_iff_and_replacement (s : PredictionService) (req : PredictionRequest)
    (now : Nat) :
    (s.predict req now = .error .busy ↔ s.is_busy = true)
    ∧ (s.is_busy = true ↔
        (s.current_setup_task = none
         ∨ (∃ st, s.current_setup_task = some st ∧ st.done = false)
         ∨ (∃ pt, s.current_predict_task = some pt ∧ predictDone pt = false)))
    ∧ (∀ pt st, s.current_predict_task = some pt → s.current_setup_task = some st →
        st.done = true → predictDone pt = true →
        s.predict req now
          = .ok ({ s with current_predict_task := some (PredictTask.create req.input req.id s.webhook s.uploader now) },
                 PredictTask.create req.input req.id s.webhook s.uploader now)) := by
  refine ⟨?_, ?_, ?_⟩
  · cases h : s.is_busy <;> simp [PredictionService.predict, h]
  · rcases s with ⟨st?, pt?, m, w, u⟩
    cases st? with
    | none => simp [PredictionService.is_busy]
    | some st =>
        cases pt? with
        | none => simp [PredictionService.is_busy]
        | some pt => simp [PredictionService.is_busy, Bool.or_eq_true]
  · intro pt st hpt hst hstd hterm
    have hb : s.is_busy = false := by
      simp [PredictionService.is_busy, hpt, hst, hstd, hterm]
    simp [PredictionService.predict, hb]

/-- Witness for C1: on a service whose setup is done and whose previous
prediction has reached a terminal state, `predict` is admitted and
installs the freshly created task as the current prediction. -/
theorem predict_busy_iff_and_replacement_witness :
    exampleServiceAfterPredict.predict { input := "elephants" } 5
      = .ok ({ exampleServiceAfterPredict with current_predict_task := some (PredictTask.create "elephants" none false none 5) },
             PredictTask.create "elephants" none false none 5) := by
  exact (predict_busy_iff_and_replacement exampleServiceAfterPredict { input := "elephants" }
    5).2.2 exampleTerminalTask exampleSetupSucceeded rfl rfl (by decide) (by decide)

/-- C2: `cancel(id)` raises ValidationError on a missing or empty id;
raises UnknownPredictionError exactly when there is no in-flight
prediction, or the current prediction is already done (it stays stored
in `current_predict_task`, readable for result polling, but is no
longer cancellable), or its id differs from the requested one; and
with the matching in-flight id the current task's status is driven to
CANCELED. -/
theorem cancel_validation_unknown_canceled (s : PredictionService) (now : Nat) :
    s.cancel none now = .error .validation
    ∧ s.cancel (some "") now = .error .validation
    ∧ (∀ i, i ≠ "" →
        (s.cancel (some i) now = .error .unknownPrediction ↔
          (s.current_predict_task = none
           ∨ ∃ pt, s.current_predict_task = some pt
               ∧ (predictDone pt = true ∨ pt.response.id ≠ some i))))
    ∧ (∀ i pt, i ≠ "" → s.current_predict_task = some pt → predictDone pt = false →
        pt.response.id = some i →
        s.cancel (some i) now = .ok { s with current_predict_task := some (pt.canceled now) }
        ∧ (pt.canceled now).response.status = .canceled) := by
  refine ⟨rfl, by simp [PredictionService.cancel], ?_, ?_⟩
  · intro i hi
    cases hpt : s.current_predict_task with
    | none => simp [PredictionService.cancel, hi, hpt]
    | some pt =>
        by_cases hd : predictDone pt = true
        · simp [PredictionService.cancel, hi, hpt, hd]
        · rw [Bool.not_eq_true] at hd
          by_cases hid : pt.response.id = some i
          · simp [PredictionService.cancel, hi, hpt, hd, hid]
          · simp [PredictionService.cancel, hi, hpt, hd, hid]
  · intro i pt hi hpt hd hid
    refine ⟨by simp [PredictionService.cancel, hi, hpt, hd, hid], ?_⟩
    cases hw : pt.webhook <;>
      simp [PredictTask.canceled, PredictTask.fire, hw]

/-- Witness for C2: cancelling the in-flight prediction "abcd1234" with
its own id succeeds and drives its status to CANCELED. -/
theorem cancel_validation_unknown_canceled_witness :
    exampleServiceInflight.cancel (some "abcd1234") 3
      = .ok { exampleServiceInflight with
              current_predict_task := some (exampleInflightTask.canceled 3) }
    ∧ (exampleInflightTask.canceled 3).response.status = .canceled := by
  exact (cancel_validation_unknown_canceled exampleServiceInflight 3).2.2.2 "abcd1234"
    exampleInflightTask (by decide) rfl (by decide) rfl

/-- One `append_output` call in multi mode with a webhook configured:
the transformed value is appended to the accumulated sequence and one
OUTPUT notification carrying the new cumulative sequence is fired. -/
theorem append_output_multi_eq (t : PredictTask) (v : String) (acc : List String)
    (hty : t.output_type = some true) (hout : outputList t.response.output = acc)
    (hwh : t.webhook = true) :
    t.append_output v = { t with response := { t.response with output := .multi (acc ++ [applyUpl t.uploader v]) }, webhookLog := t.webhookLog ++ [({ t.response with output := OutputVal.multi (acc ++ [applyUpl t.uploader v]) }, WebhookEvent.output)] } := by
  simp [PredictTask.append_output, PredictTask.fire, PredictTask.transform, hty, hout, hwh]

/-- A sequence of `append_output` calls in multi mode with a webhook
configured: the output becomes the accumulated sequence of transformed
values and the webhook log grows by one OUTPUT snapshot per call, each
carrying the cumulative sequence at that point. -/
theorem applyOutputs_multi (vs : List String) (t : PredictTask) (acc : List String)
    (hty : t.output_type = some true) (hout : outputList t.response.output = acc)
    (hwh : t.webhook = true) :
    ((applyOutputs t vs).response.output
       = match vs with
         | [] => t.response.output
         | _ => OutputVal.multi (acc ++ vs.map (applyUpl t.uploader)))
    ∧ (applyOutputs t vs).webhookLog = t.webhookLog ++ (cumOutputs (applyUpl t.uploader) acc vs).map (fun l => ({ t.response with output := OutputVal.multi l }, WebhookEvent.output)) := by
  induction vs generalizing t acc with
  | nil => exact ⟨rfl, by simp [applyOutputs, cumOutputs]⟩
  | cons v vs ih =>
      have h1 : applyOutputs t (v :: vs) = applyOutputs (t.append_output v) vs := rfl
      rw [h1, append_output_multi_eq t v acc hty hout hwh]
      obtain ⟨ho, hl⟩ := ih { t with response := { t.response with output := .multi (acc ++ [applyUpl t.uploader v]) }, webhookLog := t.webhookLog ++ [({ t.response with output := OutputVal.multi (acc ++ [applyUpl t.uploader v]) }, WebhookEvent.output)] } (acc ++ [applyUpl t.uploader v]) hty rfl hwh
      refine ⟨?_, ?_⟩
      · rw [ho]
        cases vs with
        | nil => simp
        | cons w ws => simp [List.append_assoc]
      · rw [hl]
        simp [cumOutputs, List.append_assoc]

/-- A sequence of `append_output` calls in single mode: each call
overwrites the output with its transformed value, so only the last
call's value is retained, and the webhook log does not grow at all. -/
theorem applyOutputs_single (vs : List String) (t : PredictTask)
    (hty : t.output_type = some false) :
    ((applyOutputs t vs).response.output
       = match lastValue vs with
         | some v => OutputVal.single (applyUpl t.uploader v)
         | none => t.response.output)
    ∧ (applyOutputs t vs).webhookLog = t.webhookLog := by
  induction vs generalizing t with
  | nil => simp [applyOutputs, lastValue]
  | cons v vs ih =>
      have h1 : applyOutputs t (v :: vs) = applyOutputs (t.append_output v) vs := rfl
      have h2 : t.append_output v = { t with response := { t.response with output := OutputVal.single (applyUpl t.uploader v) } } := by
        simp [PredictTask.append_output, PredictTask.transform, hty]
      rw [h1, h2]
      obtain ⟨ho, hl⟩ := ih { t with response := { t.response with output := OutputVal.single (applyUpl t.uploader v) } } hty
      refine ⟨?_, hl⟩
      rw [ho]
      cases hlv : lastValue vs <;> simp [lastValue, hlv]

/-- `cumOutputs` yields one cumulative sequence per appended value. -/
theorem cumOutputs_length (tr : String → String) (acc vs' : List String) :
    (cumOutputs tr acc vs').length = vs'.length := by
  induction vs' generalizing acc with
  | nil => rfl
  | cons v vs ih => simp [cumOutputs, ih]

/-- Filtering a list of OUTPUT notifications for OUTPUT keeps them all. -/
theorem length_filter_output_map (f : List String → PredictionResponse)
    (ls : List (List String)) :
    ((ls.map (fun l => (f l, WebhookEvent.output))).filter
        (fun p => p.2 = WebhookEvent.output)).length = ls.length := by
  induction ls with
  | nil => rfl
  | cons a as ih => simp [ih]

/-- C3: on a PredictTask with a webhook sender and optional uploader,
for every sequence of `append_output` calls: with `multi=false` the
outcome's output is the uploader-transformed value of the last call
(unset when there was no call) and no OUTPUT notification is ever
fired; with `multi=true` the outcome's output is the ordered sequence
of transformed values in call order, and the webhook log records
exactly one OUTPUT notification per call, in order, each carrying the
cumulative transformed sequence accumulated so far. -/
theorem append_output_cardinality_webhooks (input : String) (id : Option String)
    (u : Option (String → String)) (now : Nat) (vs : List String) :
    ((applyOutputs (freshPredictTask input id u now false) vs).response.output
        = match lastValue vs with
          | some v => OutputVal.single (applyUpl u v)
          | none => OutputVal.noOutput)
    ∧ eventCount (applyOutputs (freshPredictTask input id u now false) vs) .output = 0
    ∧ ((applyOutputs (freshPredictTask input id u now true) vs).response.output
        = match vs with
          | [] => OutputVal.noOutput
          | _ => OutputVal.multi (vs.map (applyUpl u)))
    ∧ (applyOutputs (freshPredictTask input id u now true) vs).webhookLog
        = (freshPredictTask input id u now true).webhookLog
          ++ (cumOutputs (applyUpl u) [] vs).map (fun l => ({ (freshPredictTask input id u now true).response with output := OutputVal.multi l }, WebhookEvent.output))
    ∧ eventCount (applyOutputs (freshPredictTask input id u now true) vs) .output = vs.length := by
  obtain ⟨ho1, hl1⟩ := applyOutputs_single vs (freshPredictTask input id u now false) rfl
  obtain ⟨ho2, hl2⟩ := applyOutputs_multi vs (freshPredictTask input id u now true) [] rfl rfl rfl
  refine ⟨ho1, ?_, ho2, ?_, ?_⟩
  · unfold eventCount
    rw [hl1]
    rfl
  · exact hl2
  · unfold eventCount
    rw [hl2, List.filter_append, List.length_append]
    have h1 : (((freshPredictTask input id u now true).webhookLog).filter
        (fun p => p.2 = WebhookEvent.output)).length = 0 := rfl
    rw [h1, length_filter_output_map, cumOutputs_length]
    exact Nat.zero_add vs.length

/-- Firing one notification adds one webhook-log entry of that kind
when a sender is configured, and nothing otherwise. -/
theorem eventCount_fire (t : PredictTask) (k' k : WebhookEvent) :
    eventCount (t.fire k') k = eventCount t k + (if t.webhook = true ∧ k' = k then 1 else 0) := by
  cases hw : t.webhook <;> by_cases hk : k' = k <;>
    simp [eventCount, PredictTask.fire, hw, hk, List.filter_append]

/-- C4 counterexample: the repository's own PredictTask tests drive a
task through `succeeded()` and then `failed("oops")`; the second
terminal call is accepted — it changes the status from SUCCEEDED to
FAILED — and fires a second COMPLETED notification, so terminal
transitions are not exactly-once and more than one COMPLETED can be
fired. -/
theorem predict_task_second_terminal_accepted :
    ((freshPredictTask "x" none none 0 true).succeeded 5).response.status = Status.succeeded
    ∧ (((freshPredictTask "x" none none 0 true).succeeded 5).failed "oops" 6).response.status
        = Status.failed
    ∧ eventCount ((freshPredictTask "x" none none 0 true).succeeded 5) .completed = 1
    ∧ eventCount (((freshPredictTask "x" none none 0 true).succeeded 5).failed "oops" 6)
        .completed = 2 := by
  decide

/-- C4 (amended): exactly one webhook START notification is fired at
task creation (when a sender is configured) and never by any later
operation; each terminal call — succeeded, failed or canceled,
including one made after an earlier terminal call, which the task does
not reject — takes effect on the status and fires exactly one
COMPLETED notification; non-terminal operations (log or output
appends, cardinality assignment) never fire COMPLETED, regardless of
output cardinality.  In particular a run with exactly one terminal
call carries exactly one COMPLETED notification. -/
theorem predict_task_webhook_start_completed_counts (input e : String) (id : Option String)
    (w m : Bool) (u : Option (String → String)) (now : Nat) (t : PredictTask) :
    eventCount (PredictTask.create input id w u now) .start = (if w then 1 else 0)
    ∧ eventCount (PredictTask.create input id w u now) .completed = 0
    ∧ eventCount (t.succeeded now) .completed = eventCount t .completed + (if t.webhook then 1 else 0)
    ∧ eventCount (t.failed e now) .completed = eventCount t .completed + (if t.webhook then 1 else 0)
    ∧ eventCount (t.canceled now) .completed = eventCount t .completed + (if t.webhook then 1 else 0)
    ∧ (t.succeeded now).response.status = Status.succeeded
    ∧ (t.failed e now).response.status = Status.failed
    ∧ (t.canceled now).response.status = Status.canceled
    ∧ eventCount (t.succeeded now) .start = eventCount t .start
    ∧ eventCount (t.failed e now) .start = eventCount t .start
    ∧ eventCount (t.canceled now) .start = eventCount t .start
    ∧ eventCount (t.append_logs e) .completed = eventCount t .completed
    ∧ eventCount (t.append_logs e) .start = eventCount t .start
    ∧ eventCount (t.append_output e) .completed = eventCount t .completed
    ∧ eventCount (t.append_output e) .start = eventCount t .start
    ∧ eventCount (t.set_output_type m) .completed = eventCount t .completed
    ∧ eventCount (t.set_output_type m) .start = eventCount t .start := by
  refine ⟨?_, ?_, ?_, ?_, ?_, ?_, ?_, ?_, ?_, ?_, ?_, ?_, ?_, ?_, ?_, rfl, rfl⟩
  · cases w <;> rfl
  · cases w <;> rfl
  · simp only [PredictTask.succeeded]
    rw [eventCount_fire]
    cases hw : t.webhook <;> simp [eventCount, hw]
  · simp only [PredictTask.failed]
    rw [eventCount_fire]
    cases hw : t.webhook <;> simp [eventCount, hw]
  · simp only [PredictTask.canceled]
    rw [eventCount_fire]
    cases hw : t.webhook <;> simp [eventCount, hw]
  · cases hw : t.webhook <;> simp [PredictTask.succeeded, PredictTask.fire, hw]
  · cases hw : t.webhook <;> simp [PredictTask.failed, PredictTask.fire, hw]
  · cases hw : t.webhook <;> simp [PredictTask.canceled, PredictTask.fire, hw]
  · simp only [PredictTask.succeeded]
    rw [eventCount_fire]
    simp [eventCount]
  · simp only [PredictTask.failed]
    rw [eventCount_fire]
    simp [eventCount]
  · simp only [PredictTask.canceled]
    rw [eventCount_fire]
    simp [eventCount]
  · simp only [PredictTask.append_logs]
    rw [eventCount_fire]
    simp [eventCount]
  · simp only [PredictTask.append_logs]
    rw [eventCount_fire]
    simp [eventCount]
  · rcases hty : t.output_type with _ | b
    · simp [PredictTask.append_output, hty]
    · cases b
      · simp [PredictTask.append_output, hty, eventCount]
      · simp only [PredictTask.append_output, hty]
        rw [eventCount_fire]
        simp [eventCount]
  · rcases hty : t.output_type with _ | b
    · simp [PredictTask.append_output, hty]
    · cases b
      · simp [PredictTask.append_output, hty, eventCount]
      · simp only [PredictTask.append_output, hty]
        rw [eventCount_fire]
        simp [eventCount]

/-- C5 counterexample: the event sequence consisting only of
`Done{error=true, error_detail="kaboom!"}` ends in FAILED, but the
resulting logs are empty — there is no final log entry at all, let
alone one containing the failure's message text.  (This matches the
repository's parametrized SetupTask test, which expects exactly this
outcome.) -/
theorem setup_done_error_leaves_logs_empty :
    (runSetup 1 [.ev (.done true "kaboom!" false)]).2.status = some Status.failed
    ∧ (runSetup 1 [.ev (.done true "kaboom!" false)]).2.logs = [] := by
  decide

/-- C5 (amended): every event sequence ending in a raw fault yields
status FAILED and its final log entry is the formatted traceback,
which contains the fault's message text; every event sequence ending
in `Done{error=true}` yields status FAILED but appends nothing to the
logs — the failure text travels in the event's `error_detail`, not in
the log. -/
theorem setup_failure_status_and_fault_logs (t0 : Nat) (sigs : List SetupSignal)
    (msg detail : String) :
    (runSetup t0 (sigs ++ [.fault msg])).2.status = some Status.failed
    ∧ (runSetup t0 (sigs ++ [.fault msg])).2.logs.getLast? = some (formatTrace msg)
    ∧ containsStr (formatTrace msg) msg
    ∧ (runSetup t0 (sigs ++ [.ev (.done true detail false)])).2.status = some Status.failed
    ∧ (runSetup t0 (sigs ++ [.ev (.done true detail false)])).2.logs
        = (runSetup t0 sigs).2.logs := by
  refine ⟨?_, ?_, ⟨"Traceback (most recent call last):\n", "\n", rfl⟩, ?_, ?_⟩
  · rw [runSetup_concat]
    rfl
  · rw [runSetup_concat]
    have h : (runSetupStep (runSetup t0 sigs) (.fault msg)).2.logs
        = (runSetup t0 sigs).2.logs ++ [formatTrace msg] := rfl
    rw [h]
    exact List.getLast?_concat _
  · rw [runSetup_concat]
    rfl
  · rw [runSetup_concat]
    rfl

/-- C6 counterexample: routing `Done{error=true,
error_detail="ErrNeckTooLong"}` to a service with an in-flight
prediction whose logs are empty sets the task's status to FAILED and
populates its error field, but appends nothing to the logs — the logs
stay the empty string, so no description of the failure is appended to
the logs for this worker-reported failure. -/
theorem done_error_populates_error_not_logs :
    ((exampleServiceInflight.handle_predict_event 3 (.done true "ErrNeckTooLong" false)).current_predict_task.map
        (fun t => t.response.status)) = some Status.failed
    ∧ ((exampleServiceInflight.handle_predict_event 3 (.done true "ErrNeckTooLong" false)).current_predict_task.map
        (fun t => t.response.error)) = some (some "ErrNeckTooLong")
    ∧ ((exampleServiceInflight.handle_predict_event 3 (.done true "ErrNeckTooLong" false)).current_predict_task.map
        (fun t => t.response.logs)) = some "" := by
  decide

/-- C6 (amended): every worker-reported failure is absorbed into the
owning task's outcome by the total (never-throwing) routing functions:
for a prediction, `Done{error=true}` drives the task to FAILED with
the error field populated from `error_detail` (logs untouched), and a
raw fault drives it to FAILED with the error field populated from the
fault's message and the formatted failure description appended to the
logs; for setup, both failure shapes drive the outcome to FAILED, and
the raw fault additionally appends the formatted failure description
to the logs (a SetupResult carries no error field at all). -/
theorem worker_failure_absorbed (s : PredictionService) (pt : PredictTask) (st : SetupResult)
    (now : Nat) (detail msg : String) :
    (s.current_predict_task = some pt →
      ((s.handle_predict_event now (.done true detail false)).current_predict_task
          = some (pt.failed detail now)
       ∧ (pt.failed detail now).response.status = Status.failed
       ∧ (pt.failed detail now).response.error = some detail
       ∧ (pt.failed detail now).response.logs = pt.response.logs
       ∧ (s.handle_predict_fault now msg).current_predict_task = some (pt.handle_fault msg now)
       ∧ (pt.handle_fault msg now).response.status = Status.failed
       ∧ (pt.handle_fault msg now).response.error = some msg
       ∧ (pt.handle_fault msg now).response.logs = pt.response.logs ++ formatTrace msg))
    ∧ (s.current_setup_task = some st →
      ((s.handle_setup_event now (.done true detail false)).current_setup_task
          = some (st.handle_event now (.done true detail false))
       ∧ (st.handle_event now (.done true detail false)).status = some Status.failed
       ∧ (st.handle_event now (.done true detail false)).logs = st.logs
       ∧ (s.handle_setup_fault now msg).current_setup_task = some (st.handle_fault now msg)
       ∧ (st.handle_fault now msg).status = some Status.failed
       ∧ (st.handle_fault now msg).logs = st.logs ++ [formatTrace msg])) := by
  constructor
  · intro h
    refine ⟨?_, ?_, ?_, ?_, ?_, ?_, ?_, ?_⟩
    · simp [PredictionService.handle_predict_event, h]
    · cases hw : pt.webhook <;> simp [PredictTask.failed, PredictTask.fire, hw]
    · cases hw : pt.webhook <;> simp [PredictTask.failed, PredictTask.fire, hw]
    · cases hw : pt.webhook <;> simp [PredictTask.failed, PredictTask.fire, hw]
    · simp [PredictionService.handle_predict_fault, h]
    · cases hw : pt.webhook <;>
        simp [PredictTask.handle_fault, PredictTask.failed, PredictTask.fire, hw]
    · cases hw : pt.webhook <;>
        simp [PredictTask.handle_fault, PredictTask.failed, PredictTask.fire, hw]
    · cases hw : pt.webhook <;>
        simp [PredictTask.handle_fault, PredictTask.failed, PredictTask.fire, hw]
  · intro h
    refine ⟨?_, rfl, rfl, ?_, rfl, rfl⟩
    · simp [PredictionService.handle_setup_event, h]
    · simp [PredictionService.handle_setup_fault, h]

/-- Witness for C6: on the service with the in-flight prediction
"abcd1234" and its completed setup, both failure shapes are absorbed
as the amended claim states. -/
theorem worker_failure_absorbed_witness :
    ((exampleServiceInflight.handle_predict_event 3 (.done true "ErrNeckTooLong" false)).current_predict_task
        = some (exampleInflightTask.failed "ErrNeckTooLong" 3)
     ∧ (exampleInflightTask.failed "ErrNeckTooLong" 3).response.status = Status.failed
     ∧ (exampleInflightTask.failed "ErrNeckTooLong" 3).response.error = some "ErrNeckTooLong"
     ∧ (exampleInflightTask.failed "ErrNeckTooLong" 3).response.logs
         = exampleInflightTask.response.logs
     ∧ (exampleServiceInflight.handle_predict_fault 3 "kaboom!").current_predict_task
         = some (exampleInflightTask.handle_fault "kaboom!" 3)
     ∧ (exampleInflightTask.handle_fault "kaboom!" 3).response.status = Status.failed
     ∧ (exampleInflightTask.handle_fault "kaboom!" 3).response.error = some "kaboom!"
     ∧ (exampleInflightTask.handle_fault "kaboom!" 3).response.logs
         = exampleInflightTask.response.logs ++ formatTrace "kaboom!")
    ∧ ((exampleServiceInflight.handle_setup_event 3 (.done true "ErrNeckTooLong" false)).current_setup_task
        = some (exampleSetupSucceeded.handle_event 3 (.done true "ErrNeckTooLong" false))
     ∧ (exampleSetupSucceeded.handle_event 3 (.done true "ErrNeckTooLong" false)).status
         = some Status.failed
     ∧ (exampleSetupSucceeded.handle_event 3 (.done true "ErrNeckTooLong" false)).logs
         = exampleSetupSucceeded.logs
     ∧ (exampleServiceInflight.handle_setup_fault 3 "kaboom!").current_setup_task
         = some (exampleSetupSucceeded.handle_fault 3 "kaboom!")
     ∧ (exampleSetupSucceeded.handle_fault 3 "kaboom!").status = some Status.failed
     ∧ (exampleSetupSucceeded.handle_fault 3 "kaboom!").logs
         = exampleSetupSucceeded.logs ++ [formatTrace "kaboom!"]) := by
  have h := worker_failure_absorbed exampleServiceInflight exampleInflightTask
    exampleSetupSucceeded 3 "ErrNeckTooLong" "kaboom!"
  exact ⟨h.1 rfl, h.2 rfl⟩

/-- C7 counterexample: after the health check has observed the failed
setup (health is SETUP_FAILED), a predict call is nevertheless
accepted: the POST /predictions handler consults only the shutdown
event and `runner.is_busy()`, and a runner whose setup task is done —
even done with FAILED — and that has no in-flight prediction is not
busy, so the prediction is admitted. -/
theorem predict_accepted_after_setup_failed :
    exampleAppFailedSetup.health = Health.setup_failed
    ∧ (http_predict exampleAppFailedSetup { input := "giraffes" } 2).isAccepted = true := by
  decide

/-- C7 (amended): SETUP_FAILED is terminal for health reporting —
`_check_setup_task` sets it when the finished setup result is not
SUCCEEDED and clears the setup task slot, after which every further
`_check_setup_task` call is a no-op — but the predict endpoint does
not consult the health state: whenever the shutdown event is unset and
the runner is not busy (which holds after a failed setup with no
prediction in flight), a predict call is accepted and submitted to the
runner. -/
theorem setup_failed_terminal_health_predict_unguarded (a : AppState) (t : SetupResult)
    (req : PredictionRequest) (now : Nat) :
    (a.setup_task = some t → t.done = true → t.status ≠ some Status.succeeded →
      ((check_setup_task a).health = Health.setup_failed
       ∧ (check_setup_task a).setup_task = none))
    ∧ (a.setup_task = none → check_setup_task a = a)
    ∧ (a.shutdown = false → a.runner.is_busy = false →
        http_predict a req now
          = .accepted { a.runner with current_predict_task := some (PredictTask.create req.input req.id a.runner.webhook a.runner.uploader now) }
              (PredictTask.create req.input req.id a.runner.webhook a.runner.uploader now)) := by
  refine ⟨?_, ?_, ?_⟩
  · intro h hd hs
    constructor <;> simp [check_setup_task, h, hd, hs]
  · intro h
    simp [check_setup_task, h]
  · intro hsd hb
    simp [http_predict, hsd, hb, PredictionService.predict]

/-- Witness for C7 (amended): observing the concrete failed setup
result drives the health to SETUP_FAILED and clears the setup task,
and the subsequent predict call on the resulting application state is
accepted. -/
theorem setup_failed_terminal_health_predict_unguarded_witness :
    ((check_setup_task exampleAppPreCheck).health = Health.setup_failed
     ∧ (check_setup_task exampleAppPreCheck).setup_task = none)
    ∧ http_predict exampleAppFailedSetup { input := "giraffes" } 2
        = .accepted { exampleAppFailedSetup.runner with current_predict_task := some (PredictTask.create "giraffes" none false none 2) }
            (PredictTask.create "giraffes" none false none 2) := by
  constructor
  · exact (setup_failed_terminal_health_predict_unguarded exampleAppPreCheck
      exampleSetupFailed { input := "giraffes" } 2).1 rfl (by decide) (by decide)
  · exact (setup_failed_terminal_health_predict_unguarded exampleAppFailedSetup
      exampleSetupFailed { input := "giraffes" } 2).2.2 rfl (by decide)

/-- C9 counterexample: a PUT request whose body id "a" differs from the
URL's prediction id "b" does not raise a request-validation error when
the shutdown event is set — the handler returns the 409
shutting-down response before looking at the id. -/
theorem mismatched_id_not_validated_when_shutting_down :
    predict_idempotent true "b" { id := some "a", input := "x" } = IdemOutcome.shutting_down409
    ∧ IdemOutcome.shutting_down409 ≠ IdemOutcome.validation_error := by
  decide

/-- C9 (amended): when the shutdown event is not set, a request body
carrying a non-null id different from the URL's prediction id raises a
request-validation error and nothing is submitted; otherwise (id
absent or equal) the body's id is set to the URL's prediction id and
the request is submitted; and any submitted request — under any
shutdown state — carries exactly the URL's prediction id. -/
theorem predict_idempotent_id_normalization (pid : String) (req : PredictionRequest)
    (sd : Bool) :
    (∀ j, sd = false → req.id = some j → j ≠ pid →
        predict_idempotent sd pid req = .validation_error)
    ∧ (sd = false → (req.id = none ∨ req.id = some pid) →
        predict_idempotent sd pid req = .submit { req with id := some pid })
    ∧ (∀ r, predict_idempotent sd pid req = .submit r → r.id = some pid) := by
  refine ⟨?_, ?_, ?_⟩
  · intro j hsd hid hne
    simp [predict_idempotent, hsd, hid, hne]
  · intro hsd hor
    rcases hor with h | h <;> simp [predict_idempotent, hsd, h]
  · intro r h
    by_cases hsd : sd = true
    · simp [predict_idempotent, hsd] at h
    · rw [Bool.not_eq_true] at hsd
      rcases hid : req.id with _ | j
      · simp [predict_idempotent, hsd, hid] at h
        rw [← h]
      · by_cases hne : j = pid
        · simp [predict_idempotent, hsd, hid, hne] at h
          rw [← h]
        · simp [predict_idempotent, hsd, hid, hne] at h

/-- Witness for C9 (amended): with the shutdown event unset, the
mismatched body id "a" against URL id "b" is rejected with the
validation error; an id-less body is submitted with its id set to
"b"; and that submitted request indeed carries id "b". -/
theorem predict_idempotent_id_normalization_witness :
    predict_idempotent false "b" { id := some "a", input := "x" } = IdemOutcome.validation_error
    ∧ predict_idempotent false "b" { id := none, input := "x" }
        = IdemOutcome.submit { id := some "b", input := "x" }
    ∧ ({ id := some "b", input := "x" } : PredictionRequest).id = some "b" := by
  refine ⟨?_, ?_, ?_⟩
  · exact (predict_idempotent_id_normalization "b" { id := some "a", input := "x" } false).1
      "a" rfl rfl (by decide)
  · exact (predict_idempotent_id_normalization "b" { id := none, input := "x" } false).2.1
      rfl (Or.inl rfl)
  · exact (predict_idempotent_id_normalization "b" { id := none, input := "x" } false).2.2
      { id := some "b", input := "x" } rfl

end Cog

